import Mathlib

/-!
Verification development for the Fuzzhead repository: a shallow embedding of
the reflection-driven fuzzing harness (lambda-handler.mjs) and its error
boundary (src/errors.js), with theorems settling the specification claims.

Modelling conventions:
* JavaScript runtime values that the harness manipulates are `JsValue`;
  machine floats only occur as `Math.random()` draws, which are embedded by
  the data they contribute (base-36 fractional digits, a floor in [0,1000),
  a coin flip) in the `Rand` structure.
* Fallible JavaScript code is embedded as `Except`: a thrown JS exception is
  `Except.error (je : JsError)`; the structured errors of src/errors.js are
  `FuzzerError` values.
* The TypeScript compiler API objects (AST, checker, runtime module) are
  embedded by the data the harness reads off them: class declarations with
  heritage-clause texts, method members with decorator texts and parameter
  type (kind, text) pairs, and a name-indexed runtime lookup.
-/

namespace Fuzzhead

/-- A JavaScript value as the harness observes it: `null`, `undefined`,
strings, (integral) numbers, booleans, or an opaque non-array object tagged
with its constructor name. -/
inductive JsValue where
  | vNull
  | vUndef
  | vStr (s : String)
  | vNum (n : Int)
  | vBool (b : Bool)
  | vObj (ctorName : String)
deriving DecidableEq

/-- A raw thrown JavaScript error, reduced to the `message` the harness reads. -/
structure JsError where
  message : String
deriving DecidableEq

/-- The error codes of src/errors.js (`ErrorCodes`). -/
inductive ErrorCode where
  | INVALID_INPUT
  | COMPILATION_ERROR
  | IMPORT_ERROR
  | EXECUTION_ERROR
  | VALIDATION_ERROR
  | RESOURCE_ERROR
  | TIMEOUT_ERROR
  | UNKNOWN_ERROR
deriving DecidableEq

/-- A structured error of src/errors.js (`FuzzerError` and subclasses),
reduced to the fields the boundary reads: `message`, `code`, and the class
name stored in `name`. -/
structure FuzzerError where
  message : String
  code : ErrorCode
  name : String
deriving DecidableEq

/-- An arbitrary thrown value at the boundary: either a `FuzzerError`
(checked by `instanceof FuzzerError` in `createErrorResponse`) or a raw
JavaScript error. -/
inductive Thrown where
  | fuzzer (e : FuzzerError)
  | js (e : JsError)
deriving DecidableEq

/-- src/errors.js `getStatusCodeForError` (lines 101-114): the
`statusCodeMap` lookup with default 500.  Every `ErrorCode` is a key of the
map, so the `|| 500` default is only reachable for codes outside the enum,
which the embedding's type excludes. -/
def getStatusCodeForError : ErrorCode → Nat
  | .INVALID_INPUT => 400
  | .VALIDATION_ERROR => 400
  | .COMPILATION_ERROR => 422
  | .IMPORT_ERROR => 422
  | .EXECUTION_ERROR => 422
  | .RESOURCE_ERROR => 503
  | .TIMEOUT_ERROR => 408
  | .UNKNOWN_ERROR => 500

/-- The error code `createErrorResponse` reports for a thrown value:
the `FuzzerError`'s own code, or `UNKNOWN_ERROR` for a raw error. -/
def codeOfThrown : Thrown → ErrorCode
  | .fuzzer e => e.code
  | .js _ => .UNKNOWN_ERROR

/-- The HTTP response envelope returned by the lambda handler, reduced to
the fields the specification talks about. -/
structure Response where
  statusCode : Nat
  success : Bool
  message : Option String
  output : String
  errorCode : Option ErrorCode
  errorMessage : Option String
  errorType : Option String
  summary : Option (Nat × Nat × Nat)
deriving DecidableEq

/-- src/errors.js `createErrorResponse` (lines 77-98): statusCode is
`getStatusCodeForError error.code` for a `FuzzerError` and 500 otherwise;
the body carries `success: false`, the error's message/code/type, and
`output: logs.join('\n')`. -/
def createErrorResponse (e : Thrown) (logs : List String) : Response :=
  { statusCode := match e with
      | .fuzzer fe => getStatusCodeForError fe.code
      | .js _ => 500
    success := false
    message := none
    output := String.intercalate ("\n") logs
    errorCode := some (codeOfThrown e)
    errorMessage := some (match e with
      | .fuzzer fe => fe.message
      | .js je => je.message)
    errorType := some (match e with
      | .fuzzer fe => fe.name
      | .js _ => "Error")
    summary := none }

/-- src/errors.js `safeExecute` (lines 117-139), wrapping case: a thrown
non-`FuzzerError` is re-thrown as
`new FuzzerError(error.message || 'An unexpected error occurred', UNKNOWN_ERROR, ...)`. -/
def jsWrap (e : JsError) : FuzzerError :=
  { message := if e.message = "" then "An unexpected error occurred" else e.message
    code := .UNKNOWN_ERROR
    name := "FuzzerError" }

/-- src/errors.js `safeExecute` applied to an operation that can only throw
raw JavaScript errors: the result is passed through, a thrown error is
wrapped by `jsWrap`.  (A thrown `FuzzerError` is re-thrown unchanged; that
case is embedded at each call site that can raise one.) -/
def safeExecute {α : Type} (r : Except JsError α) : Except FuzzerError α :=
  r.mapError jsWrap

/-! ### MockValueSynthesizer (lambda-handler.mjs lines 41-60) -/

/-- One `Math.random()` draw, embedded by the data each branch of
`generateMockValue` extracts from it:
* `digits36` — the fractional base-36 digits of the drawn double, in
  shortest form as `Number.prototype.toString(36)` renders them (`[]` when
  the draw is `0`, rendered `"0"`; otherwise the render is `"0."` followed
  by the digit characters).  Every double in `[0,1)` has such a finite
  rendering, and e.g. the draw `0.5` has `digits36 = [18]` (`"0.i"`).
* `nat1000` — the value of `Math.floor(draw * 1000)`, an integer in `[0,1000)`.
* `coin` — the value of `draw > 0.5`. -/
structure Rand where
  digits36 : List (Fin 36)
  nat1000 : Fin 1000
  coin : Bool

/-- The base-36 digit characters used by `Number.prototype.toString(36)`:
`0`-`9` then `a`-`z`. -/
def base36Char (d : Fin 36) : Char :=
  if d.val < 10 then Char.ofNat (48 + d.val) else Char.ofNat (87 + d.val)

/-- Embeds `Number.prototype.toString(36)` on a double in `[0,1)`, embedded on the
digit data of `Rand.digits36`. -/
def jsRandomToString36 (ds : List (Fin 36)) : String :=
  if ds = [] then "0" else "0." ++ String.mk (ds.map base36Char)

/-- JavaScript `String.prototype.substring(a, b)` for `a ≤ b`
(characters at indices `a` to `b - 1`, clamped to the string). -/
def jsSubstring (s : String) (a b : Nat) : String :=
  String.mk ((s.toList.drop a).take (b - a))

/-- A registered custom mock generator, embedded by the outcome of calling
it: a JavaScript function call either returns a value or throws. -/
abbrev Gen := Except JsError JsValue

/-- The `mockGeneratorRegistry` object, embedded as an association list
(later registrations shadow earlier ones under `List.lookup`, matching
property assignment followed by property lookup). -/
abbrev Registry := List (String × Gen)

/-- lambda-handler.mjs `registerMockGenerator` (lines 41-43):
`mockGeneratorRegistry[typeName] = generator`. -/
def registerMockGenerator (reg : Registry) (typeName : String) (g : Gen) : Registry :=
  (typeName, g) :: reg

/-- lambda-handler.mjs `generateMockValue` (lines 45-60): consult the
registry first (`if (mockGeneratorRegistry[typeName]) return ...()`; a
registered generator is a function, hence truthy); otherwise switch on the
numeric `SyntaxKind`: 152 StringKeyword → `Math.random().toString(36).substring(2, 7)`,
148 NumberKeyword → `Math.floor(Math.random() * 1000)`,
136 BooleanKeyword → `Math.random() > 0.5`, default → `null`.
The `Except` result propagates a registered generator's thrown exception,
which `generateMockValue` does not catch. -/
def generateMockValue (reg : Registry) (typeKind : Nat) (typeName : String)
    (r : Rand) : Except JsError JsValue :=
  match reg.lookup typeName with
  | some g => g
  | none =>
    match typeKind with
    | 152 => .ok (.vStr (jsSubstring (jsRandomToString36 r.digits36) 2 7))
    | 148 => .ok (.vNum r.nat1000.val)
    | 136 => .ok (.vBool r.coin)
    | _ => .ok .vNull

/-! ### ExecutionHarness state and executeFunction (lambda-handler.mjs lines 62-109) -/

/-- A log level of src/logger.js; the logger's entries are embedded by
their level, which is all `getSummary` counts. -/
inductive LogLevel where
  | info
  | warn
  | error
deriving DecidableEq

/-- The status of one recorded `ExecutionOutcome`: the call completed with
a return value, or threw with a message. -/
inductive OutcomeStatus where
  | success (ret : JsValue)
  | error (msg : String)
deriving DecidableEq

/-- The mutable invocation-local state the harness writes into:
`outputLogs` (the transcript returned to the user), the logger's entries
(by level), the trace of `ExecutionOutcome` records — appended exactly
where `executeFunction` marks a call's transcript line with success or
error and logs `methodResult`/`methodError` — and the index of the next
`Math.random()` draw. -/
structure HarnessState where
  outputLogs : List String
  loggerLevels : List LogLevel
  outcomes : List (String × OutcomeStatus)
  randIdx : Nat
deriving DecidableEq

/-- Number of error-level logger entries; `logger.getSummary().errors`. -/
def errorCount (ls : List LogLevel) : Nat :=
  (ls.filter (· = .error)).length

/-- Embeds `JSON.stringify` on the `JsValue`s the harness renders (none of the
strings it synthesizes require escaping). -/
def jsonStringify (v : JsValue) : String :=
  match v with
  | .vNull => "null"
  | .vUndef => "undefined"
  | .vStr s => "\"" ++ s ++ "\""
  | .vNum n => toString n
  | .vBool b => if b then "true" else "false"
  | .vObj _ => "\x7b\x7d"

/-- One element of `argsString` (lines 71-76): a non-null non-array object
renders as `{...CtorName}`, everything else via `JSON.stringify`. -/
def renderArg (v : JsValue) : String :=
  match v with
  | .vObj ctor => "\x7b..." ++ ctor ++ "\x7d"
  | v => jsonStringify v

/-- The `argsString` join of line 76. -/
def argsString (args : List JsValue) : String :=
  String.intercalate (", ") (args.map renderArg)

/-- Embeds `outputLogs[outputLogs.length - 1] += s` — append to the last pushed
line.  Only reached after at least one push, so the empty case is
unreachable in the embedding's uses. -/
def appendToLast (l : List String) (s : String) : List String :=
  match l with
  | [] => []
  | _ => l.dropLast ++ [l.getLastD ("") ++ s]

/-- How one call to `executeFunction` ended: skipped before invocation,
completed normally, or threw (in which case `executeFunction` re-throws
the given `ExecutionError`, line 103). -/
inductive ExecResult where
  | skipped
  | completed (ret : JsValue)
  | thrown (e : FuzzerError)
deriving DecidableEq

/-- lambda-handler.mjs `executeFunction` (lines 62-109).
* `args.includes(null)` → warn log + one skip transcript line, return.
* Otherwise push the `Calling` line, log `methodCall`, and run the bound
  method through `safeExecute`:
  - success: log `methodResult`, mark the line `✅ Success`, push an
    `Output` line unless the result is `undefined`;
  - a thrown error (already wrapped by `safeExecute` into a `FuzzerError`
    whose message is the thrown message): log `methodError`, mark the line
    `❌ Error`, push a `Message` line, and re-throw
    `new ExecutionError('Method execution failed: ' + message, ...)`.
The success/error branches append the corresponding `ExecutionOutcome`
record. -/
def executeFunction (name : String) (func : List JsValue → Except JsError JsValue)
    (args : List JsValue) (st : HarnessState) : HarnessState × ExecResult :=
  if args.contains .vNull then
    ({ st with
        loggerLevels := st.loggerLevels ++ [.warn]
        outputLogs := st.outputLogs ++
          ["  -> Skipping " ++ name ++ "(...) due to unsupported parameter types."] },
     .skipped)
  else
    let st1 : HarnessState :=
      { st with
          outputLogs := st.outputLogs ++
            ["  -> Calling " ++ name ++ "(" ++ argsString args ++ ")... "]
          loggerLevels := st.loggerLevels ++ [.info] }
    match safeExecute (func args) with
    | .ok result =>
      let st2 : HarnessState :=
        { st1 with
            loggerLevels := st1.loggerLevels ++ [.info]
            outputLogs :=
              (if result = .vUndef then appendToLast st1.outputLogs ("✅ Success")
               else appendToLast st1.outputLogs ("✅ Success") ++
                 ["     Output: " ++ jsonStringify result]) }
      ({ st2 with outcomes := st2.outcomes ++ [(name, .success result)] },
       .completed result)
    | .error fe =>
      let st2 : HarnessState :=
        { st1 with
            loggerLevels := st1.loggerLevels ++ [.error]
            outputLogs := appendToLast st1.outputLogs ("❌ Error") ++
              ["     Message: " ++ fe.message] }
      ({ st2 with outcomes := st2.outcomes ++ [(name, .error fe.message)] },
       .thrown { message := "Method execution failed: " ++ fe.message
                 code := .EXECUTION_ERROR
                 name := "ExecutionError" })

/-! ### TargetLocator data and the analyseAndRun loop (lines 395-438) -/

/-- One parameter declaration, embedded by what lines 427-430 read off it:
`p.type?.kind ?? 131` (131 = AnyKeyword) and `p.type?.getText(...) || ''`. -/
structure ParamDecl where
  type : Option (Nat × String)
deriving DecidableEq

/-- Embeds `p.type?.kind ?? 131`. -/
def paramTypeKind (p : ParamDecl) : Nat :=
  (p.type.map Prod.fst).getD 131

/-- Embeds the expression of line 429. -/
def paramTypeName (p : ParamDecl) : String :=
  (p.type.map Prod.snd).getD ("")

/-- A method member, embedded by its name, the source texts of its
decorator expressions, and its parameter declarations. -/
structure MethodDecl where
  name : String
  decorators : List String
  params : List ParamDecl
deriving DecidableEq

/-- A class member: a method declaration or any other member kind
(skipped by the `ts.isMethodDeclaration` filter of line 423). -/
inductive Member where
  | method (m : MethodDecl)
  | other
deriving DecidableEq

/-- A resolved exported class declaration, embedded by its name, the
source texts of its heritage-clause type expressions, and its members. -/
structure ClassDecl where
  name : String
  heritageTypeTexts : List String
  members : List Member
deriving DecidableEq

/-- Line 424: `ts.getDecorators(member)?.some(d => d.expression.getText(...).startsWith('method'))`;
the prefix test is embedded as `List.isPrefixOf` on the decorator text's
character data, which is the meaning of `startsWith`. -/
def hasMethodDecorator (m : MethodDecl) : Bool :=
  m.decorators.any (fun d => List.isPrefixOf (("method").data) d.data)

/-- Line 402: `declaration.heritageClauses?.some(c => c.types.some(t =>
t.expression.getText(...) === 'SmartContract')) ?? false`. -/
def isSmartContract (c : ClassDecl) : Bool :=
  c.heritageTypeTexts.contains ("SmartContract")

/-- The runtime counterpart of a class in the imported compiled module:
what `new ClassToRun()` does, and what each bound instance method does on
given arguments. -/
structure RuntimeClass where
  construct : Except JsError Unit
  call : String → List JsValue → Except JsError JsValue

/-- The environment one `analyseAndRun` call runs in: the resolved exported
class declarations in export order (the compiler objects of lines 344-398
abstracted to the data the loop reads), the `targetModule` lookup (empty
when the dynamic import failed, line 364), the generator registry after the
conditional registrations of lines 368-382, and the `Math.random()` draw
stream. -/
structure ModuleEnv where
  classes : List ClassDecl
  runtime : String → Option RuntimeClass
  registry : Registry
  randAt : Nat → Rand

/-- Lines 427-431: `member.parameters.map(p => generateMockValue(...))`,
threading the draw index; a generator's thrown exception aborts the map at
that parameter. -/
def genArgs (reg : Registry) (randAt : Nat → Rand) :
    List ParamDecl → Nat → Except JsError (List JsValue) × Nat
  | [], k => (.ok [], k)
  | p :: ps, k =>
    match generateMockValue reg (paramTypeKind p) (paramTypeName p) (randAt k) with
    | .error e => (.error e, k + 1)
    | .ok v =>
      match genArgs reg randAt ps (k + 1) with
      | (.ok vs, k') => (.ok (v :: vs), k')
      | (.error e, k') => (.error e, k')

/-- The member loop of lines 422-435 for one instantiated class: for each
method member carrying the `method` decorator prefix, synthesize arguments
and `await executeFunction`.  A thrown error — a generator's exception
(wrapped by the enclosing `safeExecute`) or `executeFunction`'s re-thrown
`ExecutionError` — propagates, aborting the remaining members. -/
def runMembers (env : ModuleEnv) (cls : String) (rc : RuntimeClass) :
    List Member → HarnessState → HarnessState × Option FuzzerError
  | [], st => (st, none)
  | .other :: rest, st => runMembers env cls rc rest st
  | .method m :: rest, st =>
    if hasMethodDecorator m then
      match genArgs env.registry env.randAt m.params st.randIdx with
      | (.error e, k) => ({ st with randIdx := k }, some (jsWrap e))
      | (.ok args, k) =>
        match executeFunction (cls ++ "." ++ m.name) (rc.call m.name) args
            { st with randIdx := k } with
        | (st2, .thrown e) => (st2, some e)
        | (st2, _) => runMembers env cls rc rest st2
    else runMembers env cls rc rest st

/-- Lines 400-436 for one resolved export: if the declaration is a class
whose heritage clause matches `SmartContract` textually, push the found
line, then look the class up in the imported module — a missing runtime
class logs a skip and `continue`s, a throwing constructor logs a failure
and `continue`s, and otherwise the members run against the one instance. -/
def processClass (env : ModuleEnv) (c : ClassDecl) (st : HarnessState) :
    HarnessState × Option FuzzerError :=
  if isSmartContract c then
    let st0 : HarnessState :=
      { st with outputLogs := st.outputLogs ++ ["✅ Found SmartContract: " ++ c.name] }
    match env.runtime c.name with
    | none =>
      ({ st0 with outputLogs := st0.outputLogs ++
          ["   - ⚠️  Class " ++ c.name ++ " not found in compiled module, skipping execution"] },
       none)
    | some rc =>
      match rc.construct with
      | .error e =>
        ({ st0 with
            loggerLevels := st0.loggerLevels ++ [.error]
            outputLogs := st0.outputLogs ++
              ["   - ❌ Failed to instantiate " ++ c.name ++ ": " ++ e.message] },
         none)
      | .ok _ =>
        let st1 : HarnessState :=
          { st0 with outputLogs := st0.outputLogs ++
              ["   - Instantiated " ++ c.name ++ " successfully."] }
        runMembers env c.name rc c.members st1
  else (st, none)

/-- The export loop of lines 395-438: classes are processed in export
order; a thrown error propagates out of the loop (and then out of
`analyseAndRun`'s `safeExecute`, which re-throws `FuzzerError`s unchanged),
aborting the remaining classes. -/
def runClasses (env : ModuleEnv) : List ClassDecl → HarnessState →
    HarnessState × Option FuzzerError
  | [], st => (st, none)
  | c :: rest, st =>
    match processClass env c st with
    | (st', none) => runClasses env rest st'
    | (st', some e) => (st', some e)

/-- Embeds `path.basename`. -/
def basename (p : String) : String :=
  (p.splitOn ("/")).getLastD ("")

/-- lambda-handler.mjs `analyseAndRun` (lines 338-440): push the header
lines, then run the export loop.  The compile/import/registration prologue
(lines 344-394) is abstracted into the `ModuleEnv`. -/
def analyseAndRun (env : ModuleEnv) (sourceTsPath compiledJsPath : String)
    (st : HarnessState) : HarnessState × Option FuzzerError :=
  let st0 : HarnessState :=
    { st with outputLogs := st.outputLogs ++
        ["\nFuzzing file: " ++ basename compiledJsPath,
         "   (Source: " ++ basename sourceTsPath ++ ")",
         String.mk (List.replicate 50 '-')] }
  runClasses env env.classes st0

/-! ### The lambda handler boundary (lines 443-549) -/

/-- The validated request body, reduced to the fields the handler
destructures and the embedding uses (`repoUrl`/`branch`/`filePath` are only
consumed inside the abstracted repo branch). -/
structure RequestBody where
  mode : String
  code : String
deriving DecidableEq

/-- Embeds `path.join` on the two segments the handler joins. -/
def pathJoin (a b : String) : String := a ++ "/" ++ b

/-- Line 480: `path.join('/tmp', 'fuzz-target.ts')` — computed from two
constants, hence identical on every code-mode invocation. -/
def codeModeTargetTsPath : String := pathJoin ("/tmp") ("fuzz-target.ts")

/-- Line 481: `path.join('/tmp', 'fuzz-target.js')`. -/
def codeModeCompiledJsPath : String := pathJoin ("/tmp") ("fuzz-target.js")

/-- Embeds `path.basename(filePath, '.ts')`: last path component with a trailing
`.ts` stripped (kept when the whole basename is the extension, as Node
does). -/
def basenameStripTs (p : String) : String :=
  let b := basename p
  if b.endsWith (".ts") ∧ b ≠ ".ts" then b.dropRight 3 else b

/-- Line 276: the repo-mode temporary file name
`fuzz-${path.basename(filePath, '.ts')}-${Date.now()}.ts`, with the
`Date.now()` millisecond timestamp as input. -/
def repoTempFileName (filePath : String) (now : Nat) : String :=
  "fuzz-" ++ basenameStripTs filePath ++ "-" ++ toString now ++ ".ts"

/-- Line 459: `new ValidationError('Invalid JSON in request body', ...)`. -/
def invalidJsonError : FuzzerError :=
  { message := "Invalid JSON in request body", code := .VALIDATION_ERROR
    name := "ValidationError" }

/-- Line 511: `new CompilationError('TypeScript compilation failed', diagnostics)`. -/
def compilationFailedError : FuzzerError :=
  { message := "TypeScript compilation failed", code := .COMPILATION_ERROR
    name := "CompilationError" }

/-- The collaborators one handler invocation interacts with, abstracted to
their outcomes: the `JSON.parse` of the event body, the
validation/sanitization functions of src/validation.js, the repo-mode
branch (lines 468-473), the `fs.writeFileSync`, and the TypeScript
compile (`program.emit()`, with the diagnostics when `emitSkipped`). -/
structure HandlerEnv where
  parsedBody : Option RequestBody
  validate : RequestBody → Except FuzzerError RequestBody
  repoRun : List String → List LogLevel →
    List String × List LogLevel × Option FuzzerError
  validateCode : String → Option FuzzerError
  writeFile : Except JsError Unit
  compile : Except (List String) Unit
  module : ModuleEnv

/-- What one run of the handler's `try` block produced: the transcript and
logger entries at the point the block ended, the temporary TypeScript path
the invocation wrote its source to (when it got that far), and whether the
block completed or threw. -/
structure HandlerRun where
  logs : List String
  levels : List LogLevel
  usedTsPath : Option String
  result : Except Thrown Unit

/-- The `try` block of the lambda handler (lines 453-517, with the fresh
`outputLogs = []` / `logger.clear()` of lines 445-451): parse, validate,
then either the repo branch or the code branch (validate code, write the
source to the fixed `/tmp/fuzz-target.ts`, compile, `analyseAndRun`).
Every thrown error carries out of the block; `outputLogs` keeps whatever
was accumulated. -/
def handlerBody (env : HandlerEnv) : HandlerRun :=
  let logs0 : List String := []
  let levels0 : List LogLevel := [.info]
  match env.parsedBody with
  | none => ⟨logs0, levels0, none, .error (.fuzzer invalidJsonError)⟩
  | some body =>
    match env.validate body with
    | .error e => ⟨logs0, levels0, none, .error (.fuzzer e)⟩
    | .ok vb =>
      let levels1 := levels0 ++ [.info]
      if vb.mode = "repo" then
        match env.repoRun logs0 levels1 with
        | (logs', levels', some e) => ⟨logs', levels', none, .error (.fuzzer e)⟩
        | (logs', levels', none) => ⟨logs', levels' ++ [.info], none, .ok ()⟩
      else
        match env.validateCode vb.code with
        | some e => ⟨logs0, levels1, none, .error (.fuzzer e)⟩
        | none =>
          match env.writeFile with
          | .error je =>
            ⟨logs0, levels1, some codeModeTargetTsPath, .error (.fuzzer (jsWrap je))⟩
          | .ok _ =>
            let logs1 := logs0 ++ ["Successfully wrote code to " ++ codeModeTargetTsPath]
            match env.compile with
            | .error _diags =>
              ⟨logs1, levels1, some codeModeTargetTsPath,
               .error (.fuzzer compilationFailedError)⟩
            | .ok _ =>
              let logs2 := logs1 ++ ["Successfully compiled to " ++ codeModeCompiledJsPath]
              let st0 : HarnessState := ⟨logs2, levels1, [], 0⟩
              match analyseAndRun env.module codeModeTargetTsPath codeModeCompiledJsPath st0 with
              | (st, some e) =>
                ⟨st.outputLogs, st.loggerLevels, some codeModeTargetTsPath,
                 .error (.fuzzer e)⟩
              | (st, none) =>
                ⟨st.outputLogs, st.loggerLevels ++ [.info], some codeModeTargetTsPath,
                 .ok ()⟩

/-- Embeds `logger.getSummary()` reduced to `(total, errors, warnings)`. -/
def summaryOf (levels : List LogLevel) : Nat × Nat × Nat :=
  (levels.length, errorCount levels, (levels.filter (· = .warn)).length)

/-- The lambda handler (lines 443-549): on normal completion of the `try`
block, the 200 success envelope with the joined transcript and the logger
summary; on a thrown error, `createErrorResponse(error, outputLogs)` with
the transcript accumulated up to the failure point (line 547). -/
def handler (env : HandlerEnv) : Response :=
  let run := handlerBody env
  match run.result with
  | .ok _ =>
    { statusCode := 200
      success := true
      message := some ("Fuzzing complete.")
      output := String.intercalate ("\n") run.logs
      errorCode := none
      errorMessage := none
      errorType := none
      summary := some (summaryOf run.levels) }
  | .error e => createErrorResponse e run.logs

/-! ### Concrete sample inputs used by counterexamples and witnesses -/

/-- Base-36 digit or lowercase letter: the character set
`Number.prototype.toString(36)` renders with. -/
def isBase36AlphanumChar (c : Char) : Bool :=
  (decide (Char.ofNat 48 ≤ c) && decide (c ≤ Char.ofNat 57)) ||
  (decide (Char.ofNat 97 ≤ c) && decide (c ≤ Char.ofNat 122))

/-- A draw of `Math.random() = 0` (base-36 rendering `"0"`). -/
def sampleRand0 : Rand := ⟨[], ⟨0, by decide⟩, false⟩

/-- A draw of `Math.random() = 0.5`: base-36 rendering `"0.i"`
(digit 18 = `i`), floor of `0.5 * 1000` is 500. -/
def sampleRandHalf : Rand := ⟨[⟨18, by decide⟩], ⟨500, by decide⟩, false⟩

/-- A draw whose base-36 rendering has six fractional digits
`a b c d e f` (e.g. the double closest to `0.28773713...`). -/
def sampleRandLong : Rand :=
  ⟨[⟨10, by decide⟩, ⟨11, by decide⟩, ⟨12, by decide⟩,
    ⟨13, by decide⟩, ⟨14, by decide⟩, ⟨15, by decide⟩], ⟨287, by decide⟩, true⟩

/-- The fresh harness state at the start of an invocation. -/
def sampleState0 : HarnessState := ⟨[], [], [], 0⟩

/-- A runtime class whose method `m1` throws `"boom"` and whose other
methods return `true`. -/
def rcThrowing : RuntimeClass :=
  ⟨.ok (), fun meth _ => if meth = "m1" then .error ⟨"boom"⟩ else .ok (.vBool true)⟩

/-- A healthy runtime class: constructor and methods all succeed. -/
def rcHealthy : RuntimeClass := ⟨.ok (), fun _ _ => .ok (.vBool true)⟩

/-- A discovered `SmartContract` class `A` with two decorated zero-parameter
methods `m1` (throws at runtime) and `m2`. -/
def clsThrowing : ClassDecl :=
  ⟨"A", ["SmartContract"], [.method ⟨"m1", ["method"], []⟩, .method ⟨"m2", ["method"], []⟩]⟩

/-- A discovered `SmartContract` class `B` with one decorated method `m3`. -/
def clsHealthy : ClassDecl :=
  ⟨"B", ["SmartContract"], [.method ⟨"m3", ["method"], []⟩]⟩

/-- A discovered `SmartContract` class `C` with one decorated method,
absent from the loaded artifact's exports. -/
def clsOrphan : ClassDecl :=
  ⟨"C", ["SmartContract"], [.method ⟨"m4", ["method"], []⟩]⟩

/-- A module in which class `A` throws from `m1` while class `B` is healthy:
the environment of the continue-on-error scenario. -/
def envContinue : ModuleEnv :=
  ⟨[clsThrowing, clsHealthy],
   fun n => if n = "A" then some rcThrowing else if n = "B" then some rcHealthy else none,
   [], fun _ => sampleRand0⟩

/-- A module whose first discovered class has no runtime counterpart and
whose second is healthy. -/
def envOrphan : ModuleEnv :=
  ⟨[clsOrphan, clsHealthy],
   fun n => if n = "B" then some rcHealthy else none,
   [], fun _ => sampleRand0⟩

/-- A module with no exported classes at all. -/
def sampleModuleEnvEmpty : ModuleEnv := ⟨[], fun _ => none, [], fun _ => sampleRand0⟩

/-- A code-mode invocation whose collaborators all succeed. -/
def envInvocationA : HandlerEnv :=
  ⟨some ⟨"code", "export class A1 ..."⟩, fun b => .ok b,
   fun l lv => (l, lv, none), fun _ => none, .ok (), .ok (), sampleModuleEnvEmpty⟩

/-- A second, distinct code-mode invocation (different request body). -/
def envInvocationB : HandlerEnv :=
  { envInvocationA with parsedBody := some ⟨"code", "export class B1 ..."⟩ }

/-- A code-mode invocation whose TypeScript compile reports a diagnostic
and emits nothing. -/
def envCompileFail : HandlerEnv :=
  { envInvocationA with compile := .error ["fuzz-target.ts (1,1): boom"] }

/-! ## Theorems settling the claims -/

/-- C6: the error-kind to HTTP status mapping is exactly validation → 400,
compilation → 422, import → 422, execution → 422, resource → 503,
timeout → 408, unknown → 500; and every failure response built by
`createErrorResponse` carries the status corresponding to the thrown
error's kind (a non-`FuzzerError` having kind unknown). -/
theorem C6_statusCodeMapping :
    (getStatusCodeForError .VALIDATION_ERROR = 400
      ∧ getStatusCodeForError .COMPILATION_ERROR = 422
      ∧ getStatusCodeForError .IMPORT_ERROR = 422
      ∧ getStatusCodeForError .EXECUTION_ERROR = 422
      ∧ getStatusCodeForError .RESOURCE_ERROR = 503
      ∧ getStatusCodeForError .TIMEOUT_ERROR = 408
      ∧ getStatusCodeForError .UNKNOWN_ERROR = 500)
    ∧ ∀ (e : Thrown) (logs : List String),
        (createErrorResponse e logs).statusCode =
          getStatusCodeForError (codeOfThrown e) := by
  refine ⟨⟨rfl, rfl, rfl, rfl, rfl, rfl, rfl⟩, ?_⟩
  intro e logs
  cases e <;> rfl

/-- C10: the generator registry takes precedence over primitive synthesis —
after registering a generator under a type name, the synthesizer returns
that generator's result for every parameter with that type text, even when
the parameter's type kind is a primitive keyword (string 152, number 148,
or boolean 136). -/
theorem C10_registryOverridesPrimitive (reg : Registry) (typeName : String)
    (g : Gen) (kind : Nat) (r : Rand)
    (_h : kind = 152 ∨ kind = 148 ∨ kind = 136) :
    generateMockValue (registerMockGenerator reg typeName g) kind typeName r = g := by
  unfold generateMockValue registerMockGenerator
  simp [List.lookup]

/-- C10 witness: registering a generator under the primitive type name
`string` overrides the built-in string synthesis. -/
theorem C10_registryOverridesPrimitive_witness :
    generateMockValue
        (registerMockGenerator [] "string" (Except.ok (JsValue.vNum 7)))
        152 "string" sampleRand0 = Except.ok (JsValue.vNum 7) :=
  C10_registryOverridesPrimitive [] "string" (Except.ok (JsValue.vNum 7))
    152 sampleRand0 (Or.inl rfl)

/-- C2 counterexample: the "unsupported" sentinel is the JavaScript value
`null` itself, not a value distinct from `null` — a registered generator
that legitimately returns `null` is indistinguishable from the sentinel
(first two conjuncts: the generator's `null` and the unsupported-kind
sentinel are the same value), and a method receiving that value is
skipped (third conjunct), contrary to the claim. -/
theorem C2_sentinelIsNull_counterexample :
    generateMockValue [("T", Except.ok JsValue.vNull)] 131 "T" sampleRand0 =
      Except.ok JsValue.vNull
    ∧ generateMockValue [] 131 "X" sampleRand0 = Except.ok JsValue.vNull
    ∧ (executeFunction "C.m" (fun _ => Except.ok (JsValue.vBool true))
        [JsValue.vNull] sampleState0).2 = ExecResult.skipped := by
  refine ⟨rfl, rfl, ?_⟩
  rfl

/-- C2 (amended): the sentinel is `null`; primitive synthesis (string,
number, boolean kinds, no registered generator) never yields `null`, so a
method whose arguments all come from primitive synthesis is never skipped;
but a registered generator returning `null` is equal to the sentinel and
causes a skip. -/
theorem C2_primitiveSynthesisNeverNull (reg : Registry) (kind : Nat)
    (typeName : String) (r : Rand)
    (hreg : List.lookup typeName reg = none)
    (hkind : kind = 152 ∨ kind = 148 ∨ kind = 136) :
    ∃ v, generateMockValue reg kind typeName r = Except.ok v ∧ v ≠ JsValue.vNull := by
  unfold generateMockValue
  rw [hreg]
  rcases hkind with h | h | h <;> subst h <;> exact ⟨_, rfl, by simp⟩

/-- C2 witness: at the string kind with an empty registry, the synthesized
value is not the sentinel. -/
theorem C2_primitiveSynthesisNeverNull_witness :
    ∃ v, generateMockValue [] 152 "string" sampleRand0 = Except.ok v
      ∧ v ≠ JsValue.vNull :=
  C2_primitiveSynthesisNeverNull [] 152 "string" sampleRand0 rfl (Or.inl rfl)

/-- C3 counterexample: the synthesizer is not exception-free — a registered
generator's thrown exception escapes `generateMockValue` uncaught. -/
theorem C3_generatorThrowEscapes_counterexample :
    generateMockValue [("T", Except.error ⟨"gen boom"⟩)] 152 "T" sampleRand0 =
      Except.error ⟨"gen boom"⟩ := rfl

/-- C3 (amended): for every type descriptor whose type text has no
registered generator, `generateMockValue` never throws and returns a value
(possibly the sentinel); when a generator is registered under the type
text, its result — value or thrown exception — is returned unchanged, so
an exception escapes exactly when a registered generator throws. -/
theorem C3_totalWithoutRegisteredGenerator :
    (∀ (reg : Registry) (kind : Nat) (typeName : String) (r : Rand),
        List.lookup typeName reg = none →
        ∃ v, generateMockValue reg kind typeName r = Except.ok v)
    ∧ ∀ (reg : Registry) (g : Gen) (kind : Nat) (typeName : String) (r : Rand),
        List.lookup typeName reg = some g →
        generateMockValue reg kind typeName r = g := by
  constructor
  · intro reg kind typeName r hl
    unfold generateMockValue
    rw [hl]
    split
    · simp_all
    · split <;> exact ⟨_, rfl⟩
  · intro reg g kind typeName r hl
    unfold generateMockValue
    rw [hl]

/-- C3 witness: with an empty registry, the unknown kind 131 synthesizes a
value (the sentinel) rather than throwing. -/
theorem C3_totalWithoutRegisteredGenerator_witness :
    ∃ v, generateMockValue [] 131 "AnyType" sampleRand0 = Except.ok v :=
  C3_totalWithoutRegisteredGenerator.1 [] 131 "AnyType" sampleRand0 rfl

/-- Every base-36 digit character is alphanumeric. -/
theorem base36Char_alphanum :
    ∀ d : Fin 36, isBase36AlphanumChar (base36Char d) = true := by decide

/-- Shape of the string-kind synthesis
`Math.random().toString(36).substring(2, 7)`: at most 5 characters, all of
them base-36 alphanumeric. -/
theorem jsSubstring36_spec (ds : List (Fin 36)) :
    (jsSubstring (jsRandomToString36 ds) 2 7).length ≤ 5
    ∧ ∀ c ∈ (jsSubstring (jsRandomToString36 ds) 2 7).toList,
        isBase36AlphanumChar c = true := by
  constructor
  · show (String.mk (((jsRandomToString36 ds).toList.drop 2).take (7 - 2))).length ≤ 5
    show (((jsRandomToString36 ds).toList.drop 2).take (7 - 2)).length ≤ 5
    rw [List.length_take]
    exact min_le_left _ _
  · intro c hc
    have hc2 : c ∈ ((jsRandomToString36 ds).toList.drop 2) :=
      List.take_subset _ _ hc
    by_cases h : ds = []
    · subst h
      simp [jsRandomToString36] at hc2
    · have hlist : (jsRandomToString36 ds).toList =
          Char.ofNat 48 :: Char.ofNat 46 :: ds.map base36Char := by
        show (jsRandomToString36 ds).data = _
        unfold jsRandomToString36
        rw [if_neg h, String.data_append]
        rfl
      rw [hlist] at hc2
      simp only [List.drop_succ_cons, List.drop_zero] at hc2
      obtain ⟨d, _, rfl⟩ := List.mem_map.mp hc2
      exact base36Char_alphanum d

/-- C4 counterexample: primitive string synthesis is not fixed-length.  Two
draws JavaScript's `Math.random` can genuinely produce — `0.5`, whose
base-36 rendering is `"0.i"`, and a draw rendering as `"0.abcdef"` — yield
synthesized strings of lengths 1 and 5 respectively. -/
theorem C4_stringNotFixedLength_counterexample :
    generateMockValue [] 152 "x" sampleRandHalf = Except.ok (JsValue.vStr "i")
    ∧ generateMockValue [] 152 "x" sampleRandLong = Except.ok (JsValue.vStr "abcde")
    ∧ ("i").length ≠ ("abcde").length := by
  refine ⟨rfl, rfl, by decide⟩

/-- C4 (amended): for a synthesizer invocation on a primitive descriptor
with no registered generator, primitive(string) yields a pseudo-random
alphanumeric (base-36) string of length at most 5 — the length varies with
the draw — primitive(number) yields an integer in the half-open range
[0, 1000), and primitive(boolean) yields a boolean. -/
theorem C4_primitiveShapes (reg : Registry) (typeName : String) (r : Rand)
    (h : List.lookup typeName reg = none) :
    (∃ s, generateMockValue reg 152 typeName r = Except.ok (JsValue.vStr s)
        ∧ s.length ≤ 5 ∧ ∀ c ∈ s.toList, isBase36AlphanumChar c = true)
    ∧ (∃ n, generateMockValue reg 148 typeName r = Except.ok (JsValue.vNum n)
        ∧ 0 ≤ n ∧ n < 1000)
    ∧ ∃ b, generateMockValue reg 136 typeName r = Except.ok (JsValue.vBool b) := by
  refine ⟨⟨jsSubstring (jsRandomToString36 r.digits36) 2 7, ?_,
           (jsSubstring36_spec r.digits36).1, (jsSubstring36_spec r.digits36).2⟩,
          ⟨(r.nat1000.val : Int), ?_, Int.ofNat_nonneg _, ?_⟩,
          ⟨r.coin, ?_⟩⟩
  · unfold generateMockValue; rw [h]
  · unfold generateMockValue; rw [h]
  · exact_mod_cast r.nat1000.isLt
  · unfold generateMockValue; rw [h]

/-- C4 witness: with an empty registry and the draw `0.5`, the string kind
yields the one-character alphanumeric string `"i"`, the number kind yields
500, and the boolean kind yields a boolean. -/
theorem C4_primitiveShapes_witness :
    ∃ s, generateMockValue [] 152 "string" sampleRandHalf =
        Except.ok (JsValue.vStr s)
      ∧ s.length ≤ 5 ∧ ∀ c ∈ s.toList, isBase36AlphanumChar c = true :=
  (C4_primitiveShapes [] "string" sampleRandHalf rfl).1

/-- C5: a method whose synthesized argument list contains the sentinel
(`null`) anywhere is never invoked — `executeFunction` returns before
touching the function, appending exactly one skip line to the transcript
and one warn-level logger entry, recording no `ExecutionOutcome`, leaving
the logger error count unchanged, and producing a result independent of the
method's behavior. -/
theorem C5_sentinelArgsSkip (name : String)
    (func : List JsValue → Except JsError JsValue) (args : List JsValue)
    (st : HarnessState) (h : args.contains JsValue.vNull = true) :
    executeFunction name func args st =
      ({ st with
          loggerLevels := st.loggerLevels ++ [.warn]
          outputLogs := st.outputLogs ++
            ["  -> Skipping " ++ name ++ "(...) due to unsupported parameter types."] },
       .skipped)
    ∧ (executeFunction name func args st).1.outcomes = st.outcomes
    ∧ errorCount (executeFunction name func args st).1.loggerLevels =
        errorCount st.loggerLevels
    ∧ ∀ func', executeFunction name func args st = executeFunction name func' args st := by
  have he : executeFunction name func args st =
      ({ st with
          loggerLevels := st.loggerLevels ++ [.warn]
          outputLogs := st.outputLogs ++
            ["  -> Skipping " ++ name ++ "(...) due to unsupported parameter types."] },
       .skipped) := by
    unfold executeFunction
    rw [h]
    simp
  refine ⟨he, by rw [he], ?_, ?_⟩
  · rw [he]
    simp [errorCount, List.filter_append]
  · intro func'
    have he' : executeFunction name func' args st =
        ({ st with
            loggerLevels := st.loggerLevels ++ [.warn]
            outputLogs := st.outputLogs ++
              ["  -> Skipping " ++ name ++ "(...) due to unsupported parameter types."] },
         .skipped) := by
      unfold executeFunction
      rw [h]
      simp
    rw [he, he']

/-- C5 witness: a call with the sentinel among its arguments records no
outcome. -/
theorem C5_sentinelArgsSkip_witness :
    (executeFunction "C.m" (fun _ => Except.ok (JsValue.vBool true))
        [JsValue.vNull] sampleState0).1.outcomes = sampleState0.outcomes :=
  (C5_sentinelArgsSkip "C.m" (fun _ => Except.ok (JsValue.vBool true))
      [JsValue.vNull] sampleState0 rfl).2.1

/-- C1 counterexample: a thrown method does not stay local.  In a module
with class `A` (method `m1` throws `"boom"`, then a healthy decorated
method `m2`) followed by a healthy `SmartContract` class `B` with a
decorated method and runtime counterpart, the run records the error
outcome for `A.m1` — and nothing else: `m2` and all of `B` never execute,
because `executeFunction` re-throws an `ExecutionError` that aborts the
export loop. -/
theorem C1_continueOnError_counterexample :
    (runClasses envContinue envContinue.classes sampleState0).1.outcomes =
      [("A.m1", OutcomeStatus.error ("boom"))]
    ∧ (runClasses envContinue envContinue.classes sampleState0).2 =
      some ⟨"Method execution failed: boom", .EXECUTION_ERROR, "ExecutionError"⟩
    ∧ envContinue.classes = [clsThrowing, clsHealthy]
    ∧ isSmartContract clsHealthy = true
    ∧ envContinue.runtime ("B") = some rcHealthy := by
  refine ⟨by decide, by decide, rfl, rfl, rfl⟩

/-- C1 (amended): when an invoked method throws, the harness does record an
outcome with status error carrying the thrown message (first conjunct),
but the failure is not local: `executeFunction` re-throws an
`ExecutionError`, so the member loop stops at the throwing method with a
result independent of the remaining members `rest` (second conjunct), and
the export loop stops at a class whose processing threw, with a result
independent of the subsequent classes `rest` (third conjunct) — the whole
invocation fails with that error. -/
theorem C1_errorRecordedButRunAborts :
    (∀ (name : String) (func : List JsValue → Except JsError JsValue)
        (args : List JsValue) (st : HarnessState) (msg : String),
        args.contains JsValue.vNull = false →
        func args = Except.error ⟨msg⟩ → msg ≠ "" →
        (executeFunction name func args st).1.outcomes =
            st.outcomes ++ [(name, OutcomeStatus.error msg)]
        ∧ (executeFunction name func args st).2 =
            ExecResult.thrown ⟨"Method execution failed: " ++ msg,
              .EXECUTION_ERROR, "ExecutionError"⟩)
    ∧ (∀ (env : ModuleEnv) (cls : String) (rc : RuntimeClass) (m : MethodDecl)
        (rest : List Member) (st : HarnessState) (args : List JsValue)
        (k : Nat) (st2 : HarnessState) (e2 : FuzzerError),
        hasMethodDecorator m = true →
        genArgs env.registry env.randAt m.params st.randIdx = (Except.ok args, k) →
        executeFunction (cls ++ "." ++ m.name) (rc.call m.name) args
            { st with randIdx := k } = (st2, ExecResult.thrown e2) →
        runMembers env cls rc (.method m :: rest) st = (st2, some e2))
    ∧ (∀ (env : ModuleEnv) (c : ClassDecl) (rest : List ClassDecl)
        (st st' : HarnessState) (e : FuzzerError),
        processClass env c st = (st', some e) →
        runClasses env (c :: rest) st = (st', some e)) := by
  refine ⟨?_, ?_, ?_⟩
  · intro name func args st msg hargs hf hmsg
    unfold executeFunction
    rw [hargs, hf]
    simp [safeExecute, Except.mapError, jsWrap, hmsg]
  · intro env cls rc m rest st args k st2 e2 hd hga hef
    simp only [runMembers, hd, if_true, hga, hef]
  · intro env c rest st st' e h
    simp only [runClasses]
    rw [h]

/-- C1 witness: the throwing method records its error outcome, and with a
second healthy class present the export loop still ends at the first
class's thrown error. -/
theorem C1_errorRecordedButRunAborts_witness :
    ((executeFunction "A.m1" (fun _ => Except.error ⟨"boom"⟩) [] sampleState0).1.outcomes
        = sampleState0.outcomes ++ [("A.m1", OutcomeStatus.error ("boom"))])
    ∧ runClasses envContinue (clsThrowing :: [clsHealthy]) sampleState0 =
        ((processClass envContinue clsThrowing sampleState0).1,
         some ⟨"Method execution failed: boom", .EXECUTION_ERROR, "ExecutionError"⟩) := by
  constructor
  · exact (C1_errorRecordedButRunAborts.1 "A.m1" (fun _ => Except.error ⟨"boom"⟩)
      [] sampleState0 "boom" rfl rfl (by decide)).1
  · exact C1_errorRecordedButRunAborts.2.2 envContinue clsThrowing [clsHealthy]
      sampleState0 (processClass envContinue clsThrowing sampleState0).1
      ⟨"Method execution failed: boom", .EXECUTION_ERROR, "ExecutionError"⟩ (by decide)

/-- C9: a discovered `SmartContract` class whose name is absent from the
loaded module's exports, or whose zero-argument instantiation throws,
produces exactly one class-level warning/skip transcript line after its
found line, no `ExecutionOutcome` for any of its methods, no thrown error,
and the export loop proceeds to the next class. -/
theorem C9_classLevelSkip (env : ModuleEnv) (c : ClassDecl) (st : HarnessState)
    (hsc : isSmartContract c = true)
    (h : env.runtime c.name = none ∨
         ∃ rc e, env.runtime c.name = some rc ∧ rc.construct = Except.error e) :
    (∃ line, (processClass env c st).1.outputLogs =
        st.outputLogs ++ ["✅ Found SmartContract: " ++ c.name, line])
    ∧ (processClass env c st).1.outcomes = st.outcomes
    ∧ (processClass env c st).2 = none
    ∧ ∀ rest, runClasses env (c :: rest) st =
        runClasses env rest (processClass env c st).1 := by
  rcases h with hnone | ⟨rc, e, hrc, hctor⟩
  · have hp : processClass env c st =
        ({ st with outputLogs := st.outputLogs ++
            ["✅ Found SmartContract: " ++ c.name,
             "   - ⚠️  Class " ++ c.name ++
               " not found in compiled module, skipping execution"] },
         none) := by
      unfold processClass
      rw [hsc, hnone]
      simp
    refine ⟨⟨_, by rw [hp]⟩, by rw [hp], by rw [hp], ?_⟩
    intro rest
    simp only [runClasses]
    rw [hp]
  · have hp : processClass env c st =
        ({ st with
            outputLogs := st.outputLogs ++
              ["✅ Found SmartContract: " ++ c.name,
               "   - ❌ Failed to instantiate " ++ c.name ++ ": " ++ e.message]
            loggerLevels := st.loggerLevels ++ [.error] },
         none) := by
      unfold processClass
      rw [hsc, hrc]
      simp [hctor]
    refine ⟨⟨_, by rw [hp]⟩, by rw [hp], by rw [hp], ?_⟩
    intro rest
    simp only [runClasses]
    rw [hp]

/-- C9 witness: a discovered class missing from the module's exports is
skipped without a thrown error, and the next class still runs. -/
theorem C9_classLevelSkip_witness :
    (processClass envOrphan clsOrphan sampleState0).2 = none :=
  (C9_classLevelSkip envOrphan clsOrphan sampleState0 rfl (Or.inl rfl)).2.2.1

/-- C7: whenever the handler's body throws — at validation, compilation,
import, execution, resource acquisition, or anywhere else — the failure
response is `createErrorResponse` over the transcript accumulated up to the
failure point: its `output` field is the full flattened transcript, and the
response is marked unsuccessful.  Partial progress is never discarded. -/
theorem C7_failureKeepsTranscript (env : HandlerEnv) (e : Thrown)
    (h : (handlerBody env).result = Except.error e) :
    handler env = createErrorResponse e (handlerBody env).logs
    ∧ (handler env).output = String.intercalate ("\n") (handlerBody env).logs
    ∧ (handler env).success = false := by
  have h1 : handler env = createErrorResponse e (handlerBody env).logs := by
    simp only [handler]
    rw [h]
  exact ⟨h1, by rw [h1]; rfl, by rw [h1]; rfl⟩

/-- C7 witness: an invocation that fails at compilation returns the failure
envelope over the transcript written before the compile (here the
file-write line), not an empty output. -/
theorem C7_failureKeepsTranscript_witness :
    handler envCompileFail =
      createErrorResponse (.fuzzer compilationFailedError)
        (handlerBody envCompileFail).logs
    ∧ (handlerBody envCompileFail).logs =
      ["Successfully wrote code to /tmp/fuzz-target.ts"] := by
  constructor
  · exact (C7_failureKeepsTranscript envCompileFail
      (.fuzzer compilationFailedError) rfl).1
  · rfl

/-- C8 counterexample: temporary artifact identifiers are not
invocation-unique.  Two distinct code-mode invocations (different request
bodies) both write their source to the same fixed temporary path
`/tmp/fuzz-target.ts`. -/
theorem C8_fixedTempPath_counterexample :
    (handlerBody envInvocationA).usedTsPath = some ("/tmp/fuzz-target.ts")
    ∧ (handlerBody envInvocationB).usedTsPath = some ("/tmp/fuzz-target.ts")
    ∧ envInvocationA.parsedBody ≠ envInvocationB.parsedBody := by
  refine ⟨by decide, by decide, by decide⟩

/-- C8 (amended): code-mode invocations do not use invocation-unique
temporary identifiers — any two invocations that write a temporary
TypeScript source write it to the same path, namely the fixed
`/tmp/fuzz-target.ts` computed from constants; only the repo-mode
processing derives its temporary file name from the invocation's
`Date.now()` timestamp (and a time-stamp collision is not excluded). -/
theorem C8_tempPathFixedInCodeMode :
    (∀ (env₁ env₂ : HandlerEnv) (p₁ p₂ : String),
        (handlerBody env₁).usedTsPath = some p₁ →
        (handlerBody env₂).usedTsPath = some p₂ → p₁ = p₂)
    ∧ (∀ (env : HandlerEnv) (p : String),
        (handlerBody env).usedTsPath = some p → p = codeModeTargetTsPath)
    ∧ ∀ (filePath : String) (now : Nat),
        repoTempFileName filePath now =
          "fuzz-" ++ basenameStripTs filePath ++ "-" ++ toString now ++ ".ts" := by
  have key : ∀ env : HandlerEnv, (handlerBody env).usedTsPath = none ∨
      (handlerBody env).usedTsPath = some codeModeTargetTsPath := by
    intro env
    simp only [handlerBody]
    split
    · exact Or.inl rfl
    · split
      · exact Or.inl rfl
      · split
        · split
          · exact Or.inl rfl
          · exact Or.inl rfl
        · split
          · exact Or.inl rfl
          · split
            · exact Or.inr rfl
            · split
              · exact Or.inr rfl
              · split
                · exact Or.inr rfl
                · exact Or.inr rfl
  have part2 : ∀ (env : HandlerEnv) (p : String),
      (handlerBody env).usedTsPath = some p → p = codeModeTargetTsPath := by
    intro env p hp
    rcases key env with k | k
    · rw [hp] at k; cases k
    · rw [hp] at k
      exact (Option.some.injEq _ _ ▸ k)
  refine ⟨?_, part2, ?_⟩
  · intro env₁ env₂ p₁ p₂ h₁ h₂
    rw [part2 env₁ p₁ h₁, part2 env₂ p₂ h₂]
  · intro filePath now
    rfl

/-- C8 witness: the path used by a concrete code-mode invocation is the
fixed one. -/
theorem C8_tempPathFixedInCodeMode_witness :
    ("/tmp/fuzz-target.ts" : String) = codeModeTargetTsPath :=
  C8_tempPathFixedInCodeMode.2.1 envInvocationA ("/tmp/fuzz-target.ts") (by decide)

end Fuzzhead
